import Mathlib

/-!
Verification of the Gemini image transport client (`src/gemini.ts`) of the
nano-banana-pro-mcp repository.

The client is embedded shallowly: the network call is abstracted as a
`respond` function from the outbound request to a transport-level outcome,
so each operation factors as
  prepare (pure validation + request construction)
  → transport (one call through `respond`)
  → decode (pure response scanning).
JavaScript string truthiness (`s && …`, `s || d`) is rendered as an
emptiness test on the optional string.
-/

namespace NanoBanana

/-- An inline binary payload: MIME type plus base64 data.  Used both for
input image attachments and for `inlineData` parts on the wire. -/
structure InlineData where
  mimeType : String
  data : String
deriving DecidableEq

/-- One part of an outbound request: a text part or an inline-data part
(`{ text } | { inlineData: { mimeType, data } }` in `gemini.ts`). -/
inductive RequestPart where
  | text (t : String)
  | inlineData (d : InlineData)
deriving DecidableEq

/-- The `imageConfig` of the outbound `generationConfig`: each field present
only when the conditional spread in `gemini.ts` includes it. -/
structure GeminiImageConfig where
  aspectRatio : Option String := none
  imageSize : Option String := none
deriving DecidableEq

/-- The outbound `generationConfig`. -/
structure GenerationConfig where
  responseModalities : List String
  imageConfig : Option GeminiImageConfig := none
deriving DecidableEq

/-- One element of the outbound `contents` array. -/
structure Content where
  parts : List RequestPart
deriving DecidableEq

/-- The outbound request body (`GeminiRequest` in `types.ts`). -/
structure GeminiRequest where
  contents : List Content
  generationConfig : GenerationConfig
deriving DecidableEq

/-- One part of a response candidate (`GeminiResponsePart` in `types.ts`):
both fields optional. -/
structure ResponsePart where
  text : Option String := none
  inlineData : Option InlineData := none
deriving DecidableEq

/-- The `content` object of a response candidate. -/
structure CandidateContent where
  parts : List ResponsePart
deriving DecidableEq

/-- One response candidate. -/
structure Candidate where
  content : CandidateContent
deriving DecidableEq

/-- The provider's top-level `error` object. -/
structure GeminiError where
  code : Int
  message : String
  status : String
deriving DecidableEq

/-- The provider response body (`GeminiResponse` in `types.ts`). -/
structure GeminiResponse where
  candidates : Option (List Candidate) := none
  error : Option GeminiError := none
deriving DecidableEq

/-- Options of `generateImage` (`GenerateImageOptions` plus the `images`
field destructured in `gemini.ts`). -/
structure GenerateImageOptions where
  prompt : String
  aspectRatio : Option String := none
  imageSize : Option String := none
  model : Option String := none
  images : Option (List InlineData) := none

/-- Options of `describeImage`. -/
structure DescribeImageOptions where
  images : Option (List InlineData) := none
  prompt : Option String := none
  model : Option String := none

/-- Result of a successful `generateImage` (`GeneratedImage` in
`types.ts`). -/
structure GeneratedImage where
  mimeType : String
  base64Data : String
  description : Option String := none
deriving DecidableEq

/-- Outcome of the single `fetch` round trip: a non-success HTTP status
with the raw body text, or a success status with the parsed JSON body. -/
inductive TransportResponse where
  | httpError (status : Nat) (bodyText : String)
  | ok (body : GeminiResponse)

/-- The model allow-list of `gemini.ts`. -/
def ALLOWED_MODELS : List String :=
  ["gemini-3-pro-image-preview",
   "gemini-2.5-flash-preview-05-20",
   "gemini-2.0-flash-exp"]

/-- The designated default model. -/
def DEFAULT_MODEL : String := "gemini-3-pro-image-preview"

/-- Resolution of `options.model || DEFAULT_MODEL`: the default stands in for an absent
or empty model string. -/
def resolveModel : Option String → String
  | some m => if m = "" then DEFAULT_MODEL else m
  | none => DEFAULT_MODEL

/-- The joined allow-list, `ALLOWED_MODELS.join(", ")`. -/
def allowedJoined : String :=
  String.intercalate ", " ALLOWED_MODELS

/-- The invalid-model error message built in `gemini.ts`. -/
def invalidModelMsg (model : String) : String :=
  "Invalid model: " ++ model ++ ". Allowed: " ++ allowedJoined

/-- Boolean list-prefix test (structural, used for substring search). -/
def isPrefixOfB : List Char → List Char → Bool
  | [], _ => true
  | _ :: _, [] => false
  | a :: as, b :: bs => a = b && isPrefixOfB as bs

/-- Boolean infix search: does `sub` occur inside `l`? -/
def hasInfix (sub : List Char) : List Char → Bool
  | [] => sub.isEmpty
  | c :: rest => isPrefixOfB sub (c :: rest) || hasInfix sub rest

/-- JavaScript `s.includes(sub)`: substring containment. -/
def strIncludes (s sub : String) : Bool :=
  hasInfix sub.data s.data

/-- The test `model.includes("image") || model.includes("imagen")`: the
image-capability marker test of `gemini.ts`. -/
def supportsImageConfig (model : String) : Bool :=
  strIncludes model "image" || strIncludes model "imagen"

/-- The parts array built by `generateImage`: the text prompt first, then
one inline-data part per supplied input image, in input order. -/
def generateRequestParts (o : GenerateImageOptions) : List RequestPart :=
  RequestPart.text o.prompt ::
    (o.images.getD []).map (fun img => RequestPart.inlineData img)

/-- The `generationConfig` built by `generateImage`: both modalities, and
an `imageConfig` only when the model supports it and at least one shaping
field is truthy, each field spread in only when truthy. -/
def generateGenerationConfig (model : String)
    (aspectRatio imageSize : Option String) : GenerationConfig :=
  let arT := aspectRatio.getD "" ≠ ""
  let isT := imageSize.getD "" ≠ ""
  { responseModalities := ["TEXT", "IMAGE"],
    imageConfig :=
      if supportsImageConfig model ∧ (arT ∨ isT) then
        some { aspectRatio := if arT then aspectRatio else none,
               imageSize := if isT then imageSize else none }
      else none }

/-- The pre-network phase of `generateImage`: model validation, then
request construction.  An `Except.error` here is raised before any
network call. -/
def prepareGenerate (o : GenerateImageOptions) : Except String GeminiRequest :=
  let model := resolveModel o.model
  if model ∈ ALLOWED_MODELS then
    Except.ok
      { contents := [{ parts := generateRequestParts o }],
        generationConfig :=
          generateGenerationConfig model o.aspectRatio o.imageSize }
  else
    Except.error (invalidModelMsg model)

/-- One step of the generate-path response scan: an inline-data part
overwrites the running image, otherwise a truthy text part overwrites the
running description. -/
def generateScanStep (acc : Option InlineData × Option String)
    (part : ResponsePart) : Option InlineData × Option String :=
  match part.inlineData with
  | some d => (some d, acc.2)
  | none =>
    match part.text with
    | some t => if t = "" then acc else (acc.1, some t)
    | none => acc

/-- The generate-path scan over the first candidate's parts. -/
def scanGenerateParts (parts : List ResponsePart) :
    Option InlineData × Option String :=
  parts.foldl generateScanStep (none, none)

/-- The response-decoding phase of `generateImage`: provider error object,
then empty candidate list, then the last-wins part scan. -/
def decodeGenerate (resp : GeminiResponse) : Except String GeneratedImage :=
  match resp.error with
  | some e => Except.error ("Gemini API error: " ++ e.message)
  | none =>
    match resp.candidates with
    | none => Except.error "No image generated - empty response from Gemini"
    | some [] => Except.error "No image generated - empty response from Gemini"
    | some (c :: _) =>
      match scanGenerateParts c.content.parts with
      | (none, _) => Except.error "No image data in Gemini response"
      | (some img, desc) =>
        Except.ok
          { mimeType := img.mimeType, base64Data := img.data,
            description := desc }

/-- The transport-level error message of `gemini.ts`. -/
def httpErrorMsg (status : Nat) (bodyText : String) : String :=
  "Gemini API error (" ++ toString status ++ "): " ++ bodyText

/-- The operation `generateImage`, with the single `fetch` abstracted as `respond`. -/
def generateImage (o : GenerateImageOptions)
    (respond : GeminiRequest → TransportResponse) :
    Except String GeneratedImage :=
  match prepareGenerate o with
  | Except.error e => Except.error e
  | Except.ok req =>
    match respond req with
    | TransportResponse.httpError status body =>
      Except.error (httpErrorMsg status body)
    | TransportResponse.ok resp => decodeGenerate resp

/-- The fixed default describe instruction. -/
def defaultDescribePrompt : String :=
  "Describe this image in detail. What do you see?"

/-- Resolution of `prompt || defaultPrompt`: the default stands in for an absent or
empty prompt. -/
def resolveDescribePrompt : Option String → String
  | some p => if p = "" then defaultDescribePrompt else p
  | none => defaultDescribePrompt

/-- The parts array built by `describeImage`: prompt-or-default first,
then all attachments in order. -/
def describeRequestParts (o : DescribeImageOptions) : List RequestPart :=
  RequestPart.text (resolveDescribePrompt o.prompt) ::
    (o.images.getD []).map (fun img => RequestPart.inlineData img)

/-- The pre-network phase of `describeImage`: model validation, then the
at-least-one-image check, then request construction. -/
def prepareDescribe (o : DescribeImageOptions) : Except String GeminiRequest :=
  let model := resolveModel o.model
  if model ∈ ALLOWED_MODELS then
    if o.images.getD [] = [] then
      Except.error "At least one image is required"
    else
      Except.ok
        { contents := [{ parts := describeRequestParts o }],
          generationConfig :=
            { responseModalities := ["TEXT"], imageConfig := none } }
  else
    Except.error (invalidModelMsg model)

/-- One step of the describe-path scan: a truthy text part is appended to
the running description. -/
def describeScanStep (acc : String) (part : ResponsePart) : String :=
  match part.text with
  | some t => if t = "" then acc else acc ++ t
  | none => acc

/-- The describe-path scan over the first candidate's parts. -/
def scanDescribeParts (parts : List ResponsePart) : String :=
  parts.foldl describeScanStep ""

/-- The response-decoding phase of `describeImage`. -/
def decodeDescribe (resp : GeminiResponse) : Except String String :=
  match resp.error with
  | some e => Except.error ("Gemini API error: " ++ e.message)
  | none =>
    match resp.candidates with
    | none => Except.error "No response from Gemini"
    | some [] => Except.error "No response from Gemini"
    | some (c :: _) =>
      let d := scanDescribeParts c.content.parts
      if d = "" then Except.error "No description in Gemini response"
      else Except.ok d

/-- The operation `describeImage`, with the single `fetch` abstracted as `respond`. -/
def describeImage (o : DescribeImageOptions)
    (respond : GeminiRequest → TransportResponse) :
    Except String String :=
  match prepareDescribe o with
  | Except.error e => Except.error e
  | Except.ok req =>
    match respond req with
    | TransportResponse.httpError status body =>
      Except.error (httpErrorMsg status body)
    | TransportResponse.ok resp => decodeDescribe resp

/-- The valid aspect-ratio values (`GeminiImageConfig` in `types.ts`). -/
def validAspectRatios : List String := ["1:1", "3:4", "4:3", "9:16", "16:9"]

/-- The valid image-size values (`GeminiImageConfig` in `types.ts`). -/
def validImageSizes : List String := ["1K", "2K", "4K"]

/-- Last-wins choice on options: the newer value when present, else the
older one. -/
def optOr {α : Type} : Option α → Option α → Option α
  | some a, _ => some a
  | none, b => b

/-- The last inline-data part of a response parts list. -/
def lastInlinePart (parts : List ResponsePart) : Option InlineData :=
  (parts.filterMap ResponsePart.inlineData).getLast?

/-- The last text part of a response parts list. -/
def lastTextPart (parts : List ResponsePart) : Option String :=
  (parts.filterMap ResponsePart.text).getLast?

/-- The text a part contributes to the generate-path scan: present only
when the part carries no inline data and a non-empty text. -/
def genTextOf (p : ResponsePart) : Option String :=
  match p.inlineData with
  | some _ => none
  | none =>
    match p.text with
    | some t => if t = "" then none else some t
    | none => none

/-- The last description captured by the generate-path scan. -/
def lastGenText (parts : List ResponsePart) : Option String :=
  (parts.filterMap genTextOf).getLast?

/-- Concatenation of a list of strings in order, with no separator. -/
def joinAll : List String → String
  | [] => ""
  | s :: rest => s ++ joinAll rest

lemma optOr_none_right {α : Type} (a : Option α) : optOr a none = a := by
  cases a <;> rfl

lemma optOr_assoc {α : Type} (a b c : Option α) :
    optOr (optOr a b) c = optOr a (optOr b c) := by
  cases a <;> rfl

lemma getLast?_cons_eq_optOr {α : Type} (a : α) (l : List α) :
    (a :: l).getLast? = optOr l.getLast? (some a) := by
  cases l with
  | nil => rfl
  | cons b t =>
    rw [List.getLast?_cons_cons]
    obtain ⟨x, hx⟩ := Option.isSome_iff_exists.mp
      (List.getLast?_isSome.mpr (List.cons_ne_nil b t))
    rw [hx]
    rfl

lemma foldl_generateScanStep (parts : List ResponsePart) :
    ∀ acc, parts.foldl generateScanStep acc =
      (optOr (lastInlinePart parts) acc.1, optOr (lastGenText parts) acc.2) := by
  induction parts with
  | nil =>
    intro acc
    simp [lastInlinePart, lastGenText, optOr]
  | cons p ps ih =>
    intro acc
    rw [List.foldl_cons, ih]
    rcases hd : p.inlineData with _ | d
    · rcases ht : p.text with _ | t
      · have hstep : generateScanStep acc p = acc := by
          unfold generateScanStep
          rw [hd, ht]
        have hg : genTextOf p = none := by
          unfold genTextOf
          rw [hd, ht]
        rw [hstep]
        unfold lastInlinePart lastGenText
        rw [List.filterMap_cons_none hd, List.filterMap_cons_none hg]
      · by_cases he : t = ""
        · have hstep : generateScanStep acc p = acc := by
            simp [generateScanStep, hd, ht, he]
          have hg : genTextOf p = none := by
            simp [genTextOf, hd, ht, he]
          rw [hstep]
          unfold lastInlinePart lastGenText
          rw [List.filterMap_cons_none hd, List.filterMap_cons_none hg]
        · have hstep : generateScanStep acc p = (acc.1, some t) := by
            simp [generateScanStep, hd, ht, he]
          have hg : genTextOf p = some t := by
            simp [genTextOf, hd, ht, he]
          rw [hstep]
          unfold lastInlinePart lastGenText
          rw [List.filterMap_cons_none hd, List.filterMap_cons_some hg,
            getLast?_cons_eq_optOr, optOr_assoc]
          rfl
    · have hstep : generateScanStep acc p = (some d, acc.2) := by
        unfold generateScanStep
        rw [hd]
      have hg : genTextOf p = none := by
        unfold genTextOf
        rw [hd]
      rw [hstep]
      unfold lastInlinePart lastGenText
      rw [List.filterMap_cons_some hd, List.filterMap_cons_none hg,
        getLast?_cons_eq_optOr, optOr_assoc]
      rfl

lemma scanGenerateParts_eq (parts : List ResponsePart) :
    scanGenerateParts parts = (lastInlinePart parts, lastGenText parts) := by
  rw [scanGenerateParts, foldl_generateScanStep]
  rw [optOr_none_right, optOr_none_right]

lemma lastGenText_eq_lastTextPart (parts : List ResponsePart)
    (hdisj : ∀ p ∈ parts, p.inlineData = none ∨ p.text = none)
    (htext : ∀ p ∈ parts, p.text ≠ some "") :
    lastGenText parts = lastTextPart parts := by
  unfold lastGenText lastTextPart
  congr 1
  refine List.filterMap_congr (fun p hp => ?_)
  unfold genTextOf
  rcases hdisj p hp with h | h
  · rw [h]
    rcases ht : p.text with _ | t
    · rfl
    · have hne : t ≠ "" := fun he => htext p hp (by rw [ht, he])
      simp [hne]
  · rw [h]
    cases p.inlineData <;> rfl

lemma foldl_describeScanStep (parts : List ResponsePart) :
    ∀ acc, parts.foldl describeScanStep acc =
      acc ++ joinAll (parts.filterMap ResponsePart.text) := by
  induction parts with
  | nil =>
    intro acc
    simp [joinAll]
  | cons p ps ih =>
    intro acc
    rw [List.foldl_cons, ih]
    rcases ht : p.text with _ | t
    · have hstep : describeScanStep acc p = acc := by
        unfold describeScanStep
        rw [ht]
      rw [hstep, List.filterMap_cons_none ht]
    · by_cases he : t = ""
      · have hstep : describeScanStep acc p = acc := by
          simp [describeScanStep, ht, he]
        rw [hstep, List.filterMap_cons_some ht]
        show acc ++ joinAll _ = acc ++ (t ++ joinAll _)
        rw [he, String.empty_append]
      · have hstep : describeScanStep acc p = acc ++ t := by
          simp [describeScanStep, ht, he]
        rw [hstep, List.filterMap_cons_some ht]
        show acc ++ t ++ joinAll _ = acc ++ (t ++ joinAll _)
        rw [String.append_assoc]

lemma scanDescribeParts_eq (parts : List ResponsePart) :
    scanDescribeParts parts = joinAll (parts.filterMap ResponsePart.text) := by
  rw [scanDescribeParts, foldl_describeScanStep]
  exact String.empty_append _

/-- C1: for every provider response with at least one candidate, the
generate/edit decode scans the first candidate's parts in order with
last-wins accumulation: the result's image is the last inline-data part
and its description the last text part; with no inline-data part at all
the call fails with the no-image-data error even when text is present;
a missing description still yields success with the description absent. -/
theorem generate_decode_last_wins (o : GenerateImageOptions)
    (hm : resolveModel o.model ∈ ALLOWED_MODELS)
    (resp : GeminiResponse) (c : Candidate) (cs : List Candidate)
    (he : resp.error = none) (hc : resp.candidates = some (c :: cs))
    (hdisj : ∀ p ∈ c.content.parts, p.inlineData = none ∨ p.text = none)
    (htext : ∀ p ∈ c.content.parts, p.text ≠ some "") :
    generateImage o (fun _ => TransportResponse.ok resp) =
      (match lastInlinePart c.content.parts with
       | none => Except.error "No image data in Gemini response"
       | some img =>
         Except.ok { mimeType := img.mimeType, base64Data := img.data,
                     description := lastTextPart c.content.parts }) := by
  have hprep : generateImage o (fun _ => TransportResponse.ok resp) =
      decodeGenerate resp := by
    simp [generateImage, prepareGenerate, hm]
  rw [hprep]
  unfold decodeGenerate
  rw [he, hc]
  show (match scanGenerateParts c.content.parts with
        | (none, _) => Except.error "No image data in Gemini response"
        | (some img, desc) =>
          Except.ok { mimeType := img.mimeType, base64Data := img.data,
                      description := desc } :
        Except String GeneratedImage) = _
  rw [scanGenerateParts_eq, lastGenText_eq_lastTextPart _ hdisj htext]
  cases lastInlinePart c.content.parts <;> rfl

/-- Witness for C1, the spec's end-to-end example: a response with a text
part then an inline-image part decodes to that image with the text as its
description. -/
theorem generate_decode_last_wins_witness :
    generateImage { prompt := "a sunset" }
      (fun _ => TransportResponse.ok
        { candidates := some
            [{ content := { parts :=
                [{ text := some "A beautiful sunset" },
                 { inlineData := some { mimeType := "image/png",
                                        data := "base64encodedimage" } }] } }] }) =
      Except.ok { mimeType := "image/png", base64Data := "base64encodedimage",
                  description := some "A beautiful sunset" } := by
  have h := generate_decode_last_wins { prompt := "a sunset" } (by decide)
    { candidates := some
        [{ content := { parts :=
            [{ text := some "A beautiful sunset" },
             { inlineData := some { mimeType := "image/png",
                                    data := "base64encodedimage" } }] } }] }
    { content := { parts :=
        [{ text := some "A beautiful sunset" },
         { inlineData := some { mimeType := "image/png",
                                data := "base64encodedimage" } }] } }
    [] rfl rfl (by decide) (by decide)
  rw [h]
  rfl

/-- C2: for every generateImage call with an allow-listed model, the
outgoing `generationConfig` contains an `imageConfig` iff the model
carries an image-capability marker and at least one shaping field was
supplied; when present it holds exactly the supplied fields; without the
marker the shaping fields are dropped silently and no error is raised. -/
theorem generate_imageConfig_gating (o : GenerateImageOptions)
    (hm : resolveModel o.model ∈ ALLOWED_MODELS)
    (har : ∀ a ∈ o.aspectRatio, a ∈ validAspectRatios)
    (his : ∀ s ∈ o.imageSize, s ∈ validImageSizes) :
    ∃ req, prepareGenerate o = Except.ok req ∧
      req.generationConfig.imageConfig =
        (if supportsImageConfig (resolveModel o.model) ∧
            (o.aspectRatio.isSome ∨ o.imageSize.isSome) then
          some { aspectRatio := o.aspectRatio, imageSize := o.imageSize }
        else none) := by
  refine ⟨{ contents := [{ parts := generateRequestParts o }],
            generationConfig := generateGenerationConfig (resolveModel o.model)
              o.aspectRatio o.imageSize }, ?_, ?_⟩
  · simp [prepareGenerate, hm]
  · show (generateGenerationConfig (resolveModel o.model)
        o.aspectRatio o.imageSize).imageConfig = _
    unfold generateGenerationConfig
    rcases ha : o.aspectRatio with _ | a <;> rcases hb : o.imageSize with _ | b
    · simp
    · have hb' : b ≠ "" := by
        have hv : ∀ x ∈ validImageSizes, x ≠ "" := by decide
        exact hv b (his b (by simp [hb]))
      by_cases hs : (supportsImageConfig (resolveModel o.model) : Prop) <;>
        simp [hs, hb']
    · have ha' : a ≠ "" := by
        have hv : ∀ x ∈ validAspectRatios, x ≠ "" := by decide
        exact hv a (har a (by simp [ha]))
      by_cases hs : (supportsImageConfig (resolveModel o.model) : Prop) <;>
        simp [hs, ha']
    · have ha' : a ≠ "" := by
        have hv : ∀ x ∈ validAspectRatios, x ≠ "" := by decide
        exact hv a (har a (by simp [ha]))
      have hb' : b ≠ "" := by
        have hv : ∀ x ∈ validImageSizes, x ≠ "" := by decide
        exact hv b (his b (by simp [hb]))
      by_cases hs : (supportsImageConfig (resolveModel o.model) : Prop) <;>
        simp [hs, ha', hb']

/-- Witness for C2: supplying both shaping fields to the default
image-capable model yields an `imageConfig` with exactly those fields. -/
theorem generate_imageConfig_gating_witness :
    ∃ req, prepareGenerate
        { prompt := "p", aspectRatio := some "16:9", imageSize := some "2K",
          model := some "gemini-3-pro-image-preview" } = Except.ok req ∧
      req.generationConfig.imageConfig =
        (if supportsImageConfig (resolveModel (some "gemini-3-pro-image-preview")) ∧
            ((some "16:9").isSome ∨ (some "2K").isSome) then
          some { aspectRatio := some "16:9", imageSize := some "2K" }
        else none) :=
  generate_imageConfig_gating
    { prompt := "p", aspectRatio := some "16:9", imageSize := some "2K",
      model := some "gemini-3-pro-image-preview" }
    (by decide) (by decide) (by decide)

/-- C3: an operation whose resolved model is outside the allow-list fails
with the invalid-model error naming the offending value and the full
allowed set, whatever the transport would have answered (so before any
network call). -/
theorem invalid_model_rejected (og : GenerateImageOptions)
    (od : DescribeImageOptions)
    (hg : resolveModel og.model ∉ ALLOWED_MODELS)
    (hd : resolveModel od.model ∉ ALLOWED_MODELS) :
    (∀ respond, generateImage og respond =
      Except.error (invalidModelMsg (resolveModel og.model))) ∧
    (∀ respond, describeImage od respond =
      Except.error (invalidModelMsg (resolveModel od.model))) ∧
    (∀ m : String, ∃ pre mid,
      invalidModelMsg m = pre ++ m ++ mid ++ allowedJoined) ∧
    (∀ a ∈ ALLOWED_MODELS, ∃ pre post, allowedJoined = pre ++ a ++ post) := by
  refine ⟨fun respond => ?_, fun respond => ?_,
    fun m => ⟨"Invalid model: ", ". Allowed: ", rfl⟩, ?_⟩
  · simp [generateImage, prepareGenerate, hg]
  · simp [describeImage, prepareDescribe, hd]
  · intro a ha
    have hj : allowedJoined =
        "gemini-3-pro-image-preview, gemini-2.5-flash-preview-05-20, gemini-2.0-flash-exp" := by
      decide
    simp only [ALLOWED_MODELS, List.mem_cons, List.not_mem_nil, or_false] at ha
    rcases ha with rfl | rfl | rfl
    · exact ⟨"", ", gemini-2.5-flash-preview-05-20, gemini-2.0-flash-exp",
        by rw [hj]; decide⟩
    · exact ⟨"gemini-3-pro-image-preview, ", ", gemini-2.0-flash-exp",
        by rw [hj]; decide⟩
    · exact ⟨"gemini-3-pro-image-preview, gemini-2.5-flash-preview-05-20, ", "",
        by rw [hj]; decide⟩

/-- Witness for C3: a made-up model name is rejected by both operations
regardless of the transport's behavior. -/
theorem invalid_model_rejected_witness :
    (∀ respond, generateImage { prompt := "p", model := some "bad-model" } respond =
      Except.error (invalidModelMsg (resolveModel (some "bad-model")))) ∧
    (∀ respond, describeImage
        { images := some [{ mimeType := "image/png", data := "zzz" }],
          model := some "bad-model" } respond =
      Except.error (invalidModelMsg (resolveModel (some "bad-model")))) ∧
    (∀ m : String, ∃ pre mid,
      invalidModelMsg m = pre ++ m ++ mid ++ allowedJoined) ∧
    (∀ a ∈ ALLOWED_MODELS, ∃ pre post, allowedJoined = pre ++ a ++ post) :=
  invalid_model_rejected { prompt := "p", model := some "bad-model" }
    { images := some [{ mimeType := "image/png", data := "zzz" }],
      model := some "bad-model" }
    (by decide) (by decide)

/-- C4: for every provider response with at least one candidate,
describeImage concatenates all text parts of the first candidate in
response order with no added separator, and fails with the
no-description error instead of returning an empty string. -/
theorem describe_concatenates_text (o : DescribeImageOptions)
    (hm : resolveModel o.model ∈ ALLOWED_MODELS)
    (hi : o.images.getD [] ≠ [])
    (resp : GeminiResponse) (c : Candidate) (cs : List Candidate)
    (he : resp.error = none) (hc : resp.candidates = some (c :: cs)) :
    describeImage o (fun _ => TransportResponse.ok resp) =
      (if joinAll (c.content.parts.filterMap ResponsePart.text) = "" then
        Except.error "No description in Gemini response"
      else Except.ok (joinAll (c.content.parts.filterMap ResponsePart.text))) := by
  have hprep : describeImage o (fun _ => TransportResponse.ok resp) =
      decodeDescribe resp := by
    simp [describeImage, prepareDescribe, hm, hi]
  rw [hprep]
  unfold decodeDescribe
  rw [he, hc]
  show (if scanDescribeParts c.content.parts = "" then
        Except.error "No description in Gemini response"
      else Except.ok (scanDescribeParts c.content.parts) :
      Except String String) = _
  rw [scanDescribeParts_eq]

/-- Witness for C4: text parts T1 and T2 concatenate to T1T2. -/
theorem describe_concatenates_text_witness :
    describeImage { images := some [{ mimeType := "image/png", data := "zzz" }] }
      (fun _ => TransportResponse.ok
        { candidates := some
            [{ content := { parts :=
                [{ text := some "T1" }, { text := some "T2" }] } }] }) =
      Except.ok "T1T2" := by
  have h := describe_concatenates_text
    { images := some [{ mimeType := "image/png", data := "zzz" }] }
    (by decide) (by decide)
    { candidates := some
        [{ content := { parts :=
            [{ text := some "T1" }, { text := some "T2" }] } }] }
    { content := { parts := [{ text := some "T1" }, { text := some "T2" }] } }
    [] rfl rfl
  rw [h]
  rfl

/-- C5: every call that reaches request construction sends exactly one
text part (the prompt, or the prompt-or-default for describe) first,
followed by one inline-data part per attachment in input order, each
carrying that attachment's MIME type and base64 data unchanged. -/
theorem request_parts_shape (og : GenerateImageOptions)
    (od : DescribeImageOptions)
    (hg : resolveModel og.model ∈ ALLOWED_MODELS)
    (hd : resolveModel od.model ∈ ALLOWED_MODELS)
    (hdi : od.images.getD [] ≠ []) :
    (∃ req, prepareGenerate og = Except.ok req ∧
      req.contents = [{ parts := RequestPart.text og.prompt ::
        (og.images.getD []).map (fun img => RequestPart.inlineData
          { mimeType := img.mimeType, data := img.data }) }]) ∧
    (∃ req, prepareDescribe od = Except.ok req ∧
      req.contents = [{ parts :=
        RequestPart.text (resolveDescribePrompt od.prompt) ::
        (od.images.getD []).map (fun img => RequestPart.inlineData
          { mimeType := img.mimeType, data := img.data }) }]) := by
  constructor
  · refine ⟨{ contents := [{ parts := generateRequestParts og }],
              generationConfig := generateGenerationConfig
                (resolveModel og.model) og.aspectRatio og.imageSize },
      ?_, ?_⟩
    · simp [prepareGenerate, hg]
    · show ([{ parts := generateRequestParts og }] : List Content) = _
      unfold generateRequestParts
      congr 2
  · refine ⟨{ contents := [{ parts := describeRequestParts od }],
              generationConfig :=
                { responseModalities := ["TEXT"], imageConfig := none } },
      ?_, ?_⟩
    · simp [prepareDescribe, hd, hdi]
    · show ([{ parts := describeRequestParts od }] : List Content) = _
      unfold describeRequestParts
      congr 2

/-- Witness for C5: concrete generate and describe calls produce the
expected parts lists. -/
theorem request_parts_shape_witness :
    (∃ req,
      prepareGenerate { prompt := "edit this", images := some [{ mimeType := "image/jpeg", data := "AAA" }, { mimeType := "image/png", data := "BBB" }] } = Except.ok req ∧
      req.contents = [{ parts := [RequestPart.text "edit this", RequestPart.inlineData { mimeType := "image/jpeg", data := "AAA" }, RequestPart.inlineData { mimeType := "image/png", data := "BBB" }] }]) ∧
    (∃ req,
      prepareDescribe { images := some [{ mimeType := "image/png", data := "CCC" }], prompt := some "what is this" } = Except.ok req ∧
      req.contents = [{ parts := [RequestPart.text "what is this", RequestPart.inlineData { mimeType := "image/png", data := "CCC" }] }]) := by
  obtain ⟨⟨req1, h1, h2⟩, ⟨req2, h3, h4⟩⟩ :=
    request_parts_shape
      { prompt := "edit this", images := some [{ mimeType := "image/jpeg", data := "AAA" }, { mimeType := "image/png", data := "BBB" }] }
      { images := some [{ mimeType := "image/png", data := "CCC" }], prompt := some "what is this" }
      (by decide) (by decide) (by decide)
  refine ⟨⟨req1, h1, ?_⟩, ⟨req2, h3, ?_⟩⟩
  · rw [h2]
    rfl
  · rw [h4]
    rfl

/-- C6: describeImage with an allow-listed model and an absent or empty
attachments list fails locally with the at-least-one-image error, for
any transport behavior (so no network call is attempted). -/
theorem describe_requires_image (o : DescribeImageOptions)
    (hm : resolveModel o.model ∈ ALLOWED_MODELS)
    (hi : o.images.getD [] = []) :
    ∀ respond, describeImage o respond =
      Except.error "At least one image is required" := by
  intro respond
  simp [describeImage, prepareDescribe, hm, hi]

/-- Witness for C6: describe with no images fails locally. -/
theorem describe_requires_image_witness :
    describeImage { prompt := some "hello" }
      (fun _ => TransportResponse.ok {}) =
      Except.error "At least one image is required" :=
  describe_requires_image { prompt := some "hello" } (by decide) (by decide)
    (fun _ => TransportResponse.ok {})

/-- C7: a non-success HTTP status makes both operations fail with a
message carrying the numeric status code and the raw body text
verbatim. -/
theorem transport_error_message (og : GenerateImageOptions)
    (od : DescribeImageOptions) (status : Nat) (body : String)
    (hg : resolveModel og.model ∈ ALLOWED_MODELS)
    (hd : resolveModel od.model ∈ ALLOWED_MODELS)
    (hdi : od.images.getD [] ≠ []) :
    generateImage og (fun _ => TransportResponse.httpError status body) =
      Except.error (httpErrorMsg status body) ∧
    describeImage od (fun _ => TransportResponse.httpError status body) =
      Except.error (httpErrorMsg status body) ∧
    (∃ pre post, httpErrorMsg status body = pre ++ toString status ++ post) ∧
    (∃ pre, httpErrorMsg status body = pre ++ body) := by
  refine ⟨?_, ?_, ⟨"Gemini API error (", "): " ++ body, ?_⟩,
    ⟨"Gemini API error (" ++ toString status ++ "): ", rfl⟩⟩
  · simp [generateImage, prepareGenerate, hg]
  · simp [describeImage, prepareDescribe, hd, hdi]
  · show httpErrorMsg status body = _
    unfold httpErrorMsg
    rw [String.append_assoc]

/-- Witness for C7: a 401 response with body Unauthorized yields the
expected error on both operations, its message containing 401 and
Unauthorized. -/
theorem transport_error_message_witness :
    generateImage { prompt := "p" }
      (fun _ => TransportResponse.httpError 401 "Unauthorized") =
      Except.error (httpErrorMsg 401 "Unauthorized") ∧
    describeImage { images := some [{ mimeType := "image/png", data := "zzz" }] }
      (fun _ => TransportResponse.httpError 401 "Unauthorized") =
      Except.error (httpErrorMsg 401 "Unauthorized") ∧
    (∃ pre post, httpErrorMsg 401 "Unauthorized" = pre ++ toString 401 ++ post) ∧
    (∃ pre, httpErrorMsg 401 "Unauthorized" = pre ++ "Unauthorized") :=
  transport_error_message { prompt := "p" }
    { images := some [{ mimeType := "image/png", data := "zzz" }] }
    401 "Unauthorized" (by decide) (by decide) (by decide)

/-- C8: a success-status response whose JSON body carries a top-level
error object makes both operations fail, whatever the candidate list
holds (so before any candidate inspection), with a message carrying the
provider's message text verbatim. -/
theorem provider_error_message (og : GenerateImageOptions)
    (od : DescribeImageOptions) (e : GeminiError)
    (cands : Option (List Candidate))
    (hg : resolveModel og.model ∈ ALLOWED_MODELS)
    (hd : resolveModel od.model ∈ ALLOWED_MODELS)
    (hdi : od.images.getD [] ≠ []) :
    generateImage og (fun _ => TransportResponse.ok
        { candidates := cands, error := some e }) =
      Except.error ("Gemini API error: " ++ e.message) ∧
    describeImage od (fun _ => TransportResponse.ok
        { candidates := cands, error := some e }) =
      Except.error ("Gemini API error: " ++ e.message) ∧
    (∃ pre, "Gemini API error: " ++ e.message = pre ++ e.message) := by
  refine ⟨?_, ?_, ⟨"Gemini API error: ", rfl⟩⟩
  · simp [generateImage, prepareGenerate, hg, decodeGenerate]
  · simp [describeImage, prepareDescribe, hd, hdi, decodeDescribe]

/-- Witness for C8: an error object with code 400 and message Invalid
request yields a failure whose message carries that text. -/
theorem provider_error_message_witness :
    generateImage { prompt := "p" }
      (fun _ => TransportResponse.ok
        { candidates := none,
          error := some { code := 400, message := "Invalid request",
                          status := "INVALID_ARGUMENT" } }) =
      Except.error ("Gemini API error: " ++ "Invalid request") ∧
    describeImage { images := some [{ mimeType := "image/png", data := "zzz" }] }
      (fun _ => TransportResponse.ok
        { candidates := none,
          error := some { code := 400, message := "Invalid request",
                          status := "INVALID_ARGUMENT" } }) =
      Except.error ("Gemini API error: " ++ "Invalid request") ∧
    (∃ pre, "Gemini API error: " ++ "Invalid request" =
        pre ++ "Invalid request") :=
  provider_error_message { prompt := "p" }
    { images := some [{ mimeType := "image/png", data := "zzz" }] }
    { code := 400, message := "Invalid request", status := "INVALID_ARGUMENT" }
    none (by decide) (by decide) (by decide)

/-- C9: in describeImage an empty-string prompt behaves like an absent
prompt: the request's leading text part is the fixed default instruction
whenever the prompt is absent or empty, and the supplied prompt
otherwise. -/
theorem describe_prompt_defaulting (o : DescribeImageOptions)
    (hm : resolveModel o.model ∈ ALLOWED_MODELS)
    (hi : o.images.getD [] ≠ []) :
    ∃ req rest, prepareDescribe o = Except.ok req ∧
      req.contents =
        [{ parts := RequestPart.text (resolveDescribePrompt o.prompt) :: rest }] ∧
      ((o.prompt = none ∨ o.prompt = some "") →
        resolveDescribePrompt o.prompt = defaultDescribePrompt) ∧
      (∀ p, o.prompt = some p → p ≠ "" →
        resolveDescribePrompt o.prompt = p) := by
  refine ⟨{ contents := [{ parts := describeRequestParts o }],
            generationConfig :=
              { responseModalities := ["TEXT"], imageConfig := none } },
    (o.images.getD []).map (fun img => RequestPart.inlineData img),
    ?_, rfl, ?_, ?_⟩
  · simp [prepareDescribe, hm, hi]
  · rintro (h | h) <;> simp [resolveDescribePrompt, h]
  · intro p hp hne
    simp [resolveDescribePrompt, hp, hne]

/-- Witness for C9: an empty-string prompt produces the default
instruction as the request's leading text part. -/
theorem describe_prompt_defaulting_witness :
    ∃ req rest,
      prepareDescribe { images := some [{ mimeType := "image/png", data := "zzz" }], prompt := some "" } = Except.ok req ∧
      req.contents =
        [{ parts := RequestPart.text (resolveDescribePrompt (some "")) :: rest }] ∧
      (((some "" : Option String) = none ∨ (some "" : Option String) = some "") →
        resolveDescribePrompt (some "") = defaultDescribePrompt) ∧
      (∀ p, (some "" : Option String) = some p → p ≠ "" →
        resolveDescribePrompt (some "") = p) :=
  describe_prompt_defaulting
    { images := some [{ mimeType := "image/png", data := "zzz" }], prompt := some "" }
    (by decide) (by decide)

/-- C10: a response part with no inline data and an absent or
empty-string text is skipped by both decode scans, wherever it occurs:
it neither overwrites a previously captured description in the
generate-path scan nor contributes to the describe-path concatenation. -/
theorem scan_skips_empty_text (p : ResponsePart) (hi : p.inlineData = none)
    (ht : p.text = none ∨ p.text = some "") (l1 l2 : List ResponsePart) :
    scanGenerateParts (l1 ++ p :: l2) = scanGenerateParts (l1 ++ l2) ∧
    scanDescribeParts (l1 ++ p :: l2) = scanDescribeParts (l1 ++ l2) := by
  have hgstep : ∀ acc, generateScanStep acc p = acc := by
    intro acc
    rcases ht with h | h <;> simp [generateScanStep, hi, h]
  have hdstep : ∀ acc, describeScanStep acc p = acc := by
    intro acc
    rcases ht with h | h <;> simp [describeScanStep, h]
  constructor
  · unfold scanGenerateParts
    rw [List.foldl_append, List.foldl_append, List.foldl_cons, hgstep]
  · unfold scanDescribeParts
    rw [List.foldl_append, List.foldl_append, List.foldl_cons, hdstep]

/-- Witness for C10: an empty-string text part after a captured
description changes neither scan's outcome. -/
theorem scan_skips_empty_text_witness :
    scanGenerateParts ([{ text := some "T" }] ++
        ({ text := some "" } : ResponsePart) :: []) =
      scanGenerateParts ([{ text := some "T" }] ++ []) ∧
    scanDescribeParts ([{ text := some "T" }] ++
        ({ text := some "" } : ResponsePart) :: []) =
      scanDescribeParts ([{ text := some "T" }] ++ []) :=
  scan_skips_empty_text { text := some "" } (by decide) (by decide)
    [{ text := some "T" }] []

end NanoBanana
